import Mathlib

/-
Verification of the gesture-resolution core (src/xi-modal-input/src/gesture.rs).

The file embeds the source shallowly: the one source module `gesture.rs` is
translated definition by definition; its external collaborators from
`xi_core_lib` and `xi_rope` (SelRegion, Selection, the rope's line queries and
the word cursor) are not part of the provided sources and are modelled from the
spec's interface description (spec sections 3 and 6), following the upstream
xi-editor semantics of those operations.  The word cursor is kept fully
abstract: every definition is parametric in a `select_word` function.
-/

/-- Modelled from the spec: the external word-cursor interface (spec section 6,
"Word cursor interface: constructed at (text, offset), exposes select word →
(start, end)").  The word-boundary policy itself is external, so the whole
development is parametric in it. -/
abbrev SelectWord : Type := List Char → Nat → Nat × Nat

/-- Modelled from the spec: the text buffer is an immutable sequence of
characters (spec section 3); we represent it as a `List Char`. Offsets are
indices into that list. -/
abbrev RopeText : Type := List Char

/-- Modelled from the spec: the rope's line-of-offset query (spec section 6).
Following xi_rope, the line containing `offset` is the number of newline
characters strictly before `offset`. -/
def line_of_offset (text : RopeText) (offset : Nat) : Nat :=
  (text.take offset).count '\n'

/-- Modelled from the spec: the rope's offset-of-line query (spec section 6).
Line 0 starts at offset 0; line `n + 1` starts right after the (n+1)-th
newline.  A line number past the last line yields the text length (xi_rope
panics one line later; in-range behaviour agrees). -/
def offset_of_line : RopeText → Nat → Nat
  | _, 0 => 0
  | [], _ + 1 => 0
  | c :: rest, n + 1 =>
    if c = '\n' then 1 + offset_of_line rest n else 1 + offset_of_line rest (n + 1)

/-- Modelled from the spec: `SelectionGranularity` from the upstream rpc
vocabulary (spec section 3): Point, Word or Line. -/
inductive SelectionGranularity where
  | Point
  | Word
  | Line
deriving DecidableEq, Repr

/-- Modelled from the spec: the gesture vocabulary (spec sections 4 and 7).
Besides the three live variants the upstream enum carries deprecated variants;
any of them reaching the core is the contract violation of spec section 7. -/
inductive GestureType where
  | Select (granularity : SelectionGranularity) (multi : Bool)
  | SelectExtend (granularity : SelectionGranularity)
  | Drag
  | PointSelect
  | ToggleSel
  | RangeSelect
  | LineSelect
  | WordSelect
  | MultiLineSelect
  | MultiWordSelect
deriving DecidableEq, Repr

/-- Modelled from the spec: a selection region, a pair of offsets plus an
optional horizontal hint (spec section 3).  `start` is the anchor and `end_`
the active edge (the region may be reversed); the Rust field `end` is a Lean
keyword, hence `end_`. -/
structure SelRegion where
  start : Nat
  end_ : Nat
  horiz : Option Nat
deriving DecidableEq, Repr

/-- Modelled from the spec: `SelRegion::new`, a fresh region with no hint. -/
def SelRegion.new (start end_ : Nat) : SelRegion :=
  ⟨start, end_, none⟩

/-- Modelled from the spec: `SelRegion::caret`, a degenerate region. -/
def SelRegion.caret (offset : Nat) : SelRegion :=
  SelRegion.new offset offset

/-- Modelled from the spec: the smaller edge of a region. -/
def SelRegion.min (r : SelRegion) : Nat :=
  Nat.min r.start r.end_

/-- Modelled from the spec: the larger edge of a region. -/
def SelRegion.max (r : SelRegion) : Nat :=
  Nat.max r.start r.end_

/-- Modelled from the spec: a region is a caret when both edges agree. -/
def SelRegion.is_caret (r : SelRegion) : Bool :=
  r.start == r.end_

/-- Modelled from the spec: `SelRegion::with_horiz`, replacing the hint. -/
def SelRegion.with_horiz (r : SelRegion) (h : Option Nat) : SelRegion :=
  { r with horiz := h }

/-- Modelled from the spec: upstream `SelRegion::should_merge` — two regions
merge when they overlap, or touch and one of them is a caret. -/
def SelRegion.should_merge (self other : SelRegion) : Bool :=
  other.min < self.max ||
    ((self.is_caret || other.is_caret) && other.min == self.max)

/-- Modelled from the spec: upstream `SelRegion::merge_with` — the union span,
oriented like `self`, with the hint dropped. -/
def SelRegion.merge_with (self other : SelRegion) : SelRegion :=
  let new_min := Nat.min self.min other.min
  let new_max := Nat.max self.max other.max
  if self.start ≤ self.end_ then SelRegion.new new_min new_max
  else SelRegion.new new_max new_min

/-- Modelled from the spec: the invariant-preserving region container (spec
sections 3 and 6): an ordered list of regions, non-overlapping after merge. -/
structure Selection where
  regions : List SelRegion
deriving DecidableEq, Repr

/-- Modelled from the spec: region count of a selection. -/
def Selection.len (s : Selection) : Nat :=
  s.regions.length

/-- Modelled from the spec: the last (most recently active) region. -/
def Selection.last (s : Selection) : Option SelRegion :=
  s.regions.getLast?

/-- Modelled from the spec: upstream `Selection::search` — index of the first
region whose `max` is at least `offset` (the upstream binary search, stated
functionally for the sorted region list). -/
def Selection.search (s : Selection) (offset : Nat) : Nat :=
  s.regions.findIdx fun r => decide (offset ≤ r.max)

/-- Modelled from the spec: the overlap query `regions_in_range` (spec
section 6): the slice of regions between `search start` and `search end_`,
extended by one when the region at the upper index begins at or before
`end_`. -/
def Selection.regions_in_range (s : Selection) (start end_ : Nat) : List SelRegion :=
  let first := s.search start
  let last0 := s.search end_
  let last : Nat :=
    match s.regions[last0]? with
    | some r => if r.min ≤ end_ then last0 + 1 else last0
    | none => last0
  (s.regions.drop first).take (last - first)

/-- Modelled from the spec: the range-delete operation `delete_range`
(spec section 6), upstream semantics: drop the regions between the two search
indices, with the `delete_adjacent` flag deciding whether touching regions
count. -/
def Selection.delete_range (s : Selection) (start end_ : Nat)
    (delete_adjacent : Bool) : Selection :=
  let first0 := s.search start
  let last0 := s.search end_
  match s.regions[first0]? with
  | none => s
  | some rfirst =>
    let first := if !delete_adjacent && rfirst.max == start then first0 + 1 else first0
    let last : Nat :=
      match s.regions[last0]? with
      | some rlast =>
        if (delete_adjacent && decide (rlast.min ≤ end_)) ||
            (!delete_adjacent && decide (rlast.min < end_))
        then last0 + 1 else last0
      | none => last0
    if first < last then ⟨s.regions.take first ++ s.regions.drop last⟩ else s

/-- Modelled from the spec: the merge loop inside upstream
`Selection::add_region` — absorb the following regions while the accumulated
region should merge with the next one; returns the accumulated region and how
many regions were absorbed. -/
def absorb_following : SelRegion → List SelRegion → SelRegion × Nat
  | region, [] => (region, 0)
  | region, r :: rest =>
    if region.should_merge r then
      let p := absorb_following (region.merge_with r) rest
      (p.1, p.2 + 1)
    else (region, 0)

/-- Modelled from the spec: the merge-preserving insert `add_region`
(spec section 6), upstream semantics: locate the insertion point by
`search (min region)`, merge with the region already there when appropriate,
then absorb every following overlapping region. -/
def Selection.add_region (s : Selection) (region : SelRegion) : Selection :=
  let ix0 := s.search region.min
  match s.regions[ix0]? with
  | none => ⟨s.regions ++ [region]⟩
  | some rix =>
    let step : Nat × Nat × SelRegion :=
      if rix.min ≤ region.min then
        if rix.should_merge region then (ix0, ix0 + 1, region.merge_with rix)
        else (ix0 + 1, ix0 + 1, region)
      else (ix0, ix0, region)
    let p := absorb_following step.2.2 (s.regions.drop step.2.1)
    ⟨s.regions.take step.1 ++ [p.1] ++ s.regions.drop (step.2.1 + p.2)⟩

/-- State required to resolve a drag gesture into a selection
(`DragState` in gesture.rs).  `base_sel` is documented in the source as "All
the selection regions other than the one being dragged"; `min` and `max` are
the edges of the region selected when the drag started. -/
structure DragState where
  base_sel : Selection
  min : Nat
  max : Nat
  granularity : SelectionGranularity
deriving DecidableEq, Repr

/-- Translation of `region_for_gesture` from gesture.rs: expand an offset into
a region according to the granularity. -/
def region_for_gesture (sw : SelectWord) (text : RopeText) (offset : Nat)
    (granularity : SelectionGranularity) : SelRegion :=
  match granularity with
  | SelectionGranularity.Point => SelRegion.caret offset
  | SelectionGranularity.Word =>
    let p := sw text offset
    SelRegion.new p.1 p.2
  | SelectionGranularity.Line =>
    let line := line_of_offset text offset
    let start := offset_of_line text line
    let stop := offset_of_line text (line + 1)
    SelRegion.new start stop

/-- Translation of `region_extending_region` from gesture.rs: the region
generated by extending an existing region (the active interval is passed as
its two offsets; the source only reads its start). -/
def region_extending_region (sw : SelectWord) (text : RopeText)
    (active_start active_stop offset : Nat)
    (granularity : SelectionGranularity) : SelRegion :=
  let _ := active_stop
  let extension := region_for_gesture sw text offset granularity
  if offset ≥ active_start then SelRegion.new active_start extension.end_
  else SelRegion.new active_start extension.start

/-- Translation of `GestureContext::selection_for_gesture` from gesture.rs.
The context's borrowed pieces appear as arguments; the returned pair is the
new selection together with the drag-state slot after the call, and `none`
models the `panic!` on an unexpected gesture. -/
def selection_for_gesture (sw : SelectWord) (text : RopeText) (sel : Selection)
    (drag_state : Option DragState) (offset : Nat) (gesture : GestureType) :
    Option (Selection × Option DragState) :=
  if gesture = GestureType.Select SelectionGranularity.Point true ∧
      sel.regions_in_range offset offset ≠ [] ∧ 1 < sel.len then
    -- we don't allow toggling the last selection
    some (sel.delete_range offset offset true, drag_state)
  else
    match gesture with
    | GestureType.Select granularity multi =>
      let new_region := region_for_gesture sw text offset granularity
      let new_sel :=
        if multi then sel.add_region new_region else ⟨[new_region]⟩
      some (new_sel, some ⟨new_sel, new_region.start, new_region.end_, granularity⟩)
    | GestureType.SelectExtend granularity =>
      match sel.regions.getLast? with
      | none => some (sel, drag_state)
      | some active_region =>
        let new_region := region_for_gesture sw text offset granularity
        let merged_region :=
          if offset ≥ new_region.start then
            SelRegion.new active_region.start new_region.end_
          else
            SelRegion.new active_region.start new_region.start
        let new := sel.add_region merged_region
        some (new, some ⟨new, new_region.start, new_region.end_, granularity⟩)
    | GestureType.Drag =>
      match drag_state with
      | none => some (sel, none)
      | some ds =>
        let new_region :=
          region_extending_region sw text ds.min ds.max offset ds.granularity
        some (ds.base_sel.add_region (new_region.with_horiz none), drag_state)
    | _ => none

/-- A concrete trivial word cursor, used to instantiate the parametric
development on closed inputs. -/
def swTriv : SelectWord := fun _ offset => (offset, offset + 1)

/-- Helper: the merge-preserving insert never returns an empty region list. -/
theorem Selection.add_region_len_pos (s : Selection) (r : SelRegion) :
    0 < (s.add_region r).len := by
  simp only [Selection.add_region]
  split
  · simp [Selection.len]
  · simp only [Selection.len, List.length_append, List.length_take,
      List.length_drop, List.length_cons, List.length_nil]
    omega

/-- Helper: deleting the point range at `o` with `delete_adjacent = true`
removes at most one region, so at least one survives from a selection with
more than one region. -/
theorem Selection.delete_range_point_len_pos (s : Selection) (o : Nat)
    (h : 1 < s.len) : 0 < (s.delete_range o o true).len := by
  simp only [Selection.delete_range, Selection.len] at h ⊢
  split
  · omega
  · rename_i rfirst hfirst
    obtain ⟨hlt, -⟩ := List.getElem?_eq_some.mp hfirst
    rw [hfirst]
    simp only [Bool.not_true, Bool.false_and, Bool.false_eq_true, if_false,
      Bool.true_and, Bool.or_false]
    split <;> split <;>
      first
        | omega
        | (simp only [List.length_append, List.length_take, List.length_drop]
           omega)

/-- Claim C5: for every text, anchor range, offset and granularity, with
extension = region_for_gesture(text, offset, granularity), the function
region_extending_region returns [anchor.start, extension.end) when
offset ≥ anchor.start, and [anchor.start, extension.start) when
offset < anchor.start. -/
theorem region_extending_region_spec (sw : SelectWord) (text : RopeText)
    (astart astop offset : Nat) (g : SelectionGranularity) :
    (astart ≤ offset →
      region_extending_region sw text astart astop offset g
        = SelRegion.new astart (region_for_gesture sw text offset g).end_)
    ∧ (offset < astart →
      region_extending_region sw text astart astop offset g
        = SelRegion.new astart (region_for_gesture sw text offset g).start) := by
  constructor
  · intro h
    simp only [region_extending_region, ge_iff_le]
    rw [if_pos h]
  · intro h
    simp only [region_extending_region, ge_iff_le]
    rw [if_neg (by omega)]

/-- Witness for claim C5 at a concrete input: anchor [1,4), offset 3 ≥ 1,
Point granularity, so the result is [1, caret-at-3.end) = [1,3). -/
theorem region_extending_region_spec_witness :
    region_extending_region swTriv [] 1 4 3 SelectionGranularity.Point
      = SelRegion.new 1 3 :=
  ((region_extending_region_spec swTriv [] 1 4 3 SelectionGranularity.Point).1
    (by decide)).trans (by decide)

/-- Claim C7: a Drag gesture leaves a non-empty drag-state slot exactly as it
was (min, max, granularity and base selection are all unchanged); only Select
and SelectExtend write the slot. -/
theorem drag_leaves_slot_unchanged (sw : SelectWord) (text : RopeText)
    (sel : Selection) (offset : Nat) (d : DragState) :
    (selection_for_gesture sw text sel (some d) offset GestureType.Drag).map
      Prod.snd = some (some d) := rfl

/-- Claim C8: a Drag gesture with an empty drag-state slot returns the
current selection unchanged and leaves the slot empty. -/
theorem drag_no_anchor_noop (sw : SelectWord) (text : RopeText)
    (sel : Selection) (offset : Nat) :
    selection_for_gesture sw text sel none offset GestureType.Drag
      = some (sel, none) := rfl

/-- Claim C9: any gesture outside Select, SelectExtend and Drag makes
selection_for_gesture abort (the source panics; the embedding returns none)
rather than return a selection. -/
theorem unexpected_gesture_aborts (sw : SelectWord) (text : RopeText)
    (sel : Selection) (ds : Option DragState) (offset : Nat) (g : GestureType)
    (h1 : ∀ gran multi, g ≠ GestureType.Select gran multi)
    (h2 : ∀ gran, g ≠ GestureType.SelectExtend gran)
    (h3 : g ≠ GestureType.Drag) :
    selection_for_gesture sw text sel ds offset g = none := by
  cases g with
  | Select gran multi => exact absurd rfl (h1 gran multi)
  | SelectExtend gran => exact absurd rfl (h2 gran)
  | Drag => exact absurd rfl h3
  | PointSelect => rfl
  | ToggleSel => rfl
  | RangeSelect => rfl
  | LineSelect => rfl
  | WordSelect => rfl
  | MultiLineSelect => rfl
  | MultiWordSelect => rfl

/-- Witness for claim C9 at a concrete input: the deprecated ToggleSel
variant reaching the core aborts. -/
theorem unexpected_gesture_aborts_witness :
    selection_for_gesture swTriv [] ⟨[]⟩ none 0 GestureType.ToggleSel = none :=
  unexpected_gesture_aborts swTriv [] ⟨[]⟩ none 0 GestureType.ToggleSel
    (fun _ _ h => GestureType.noConfusion h)
    (fun _ h => GestureType.noConfusion h)
    (fun h => GestureType.noConfusion h)

/-- Claim C1 (counterexample): for selection {[0,5)} and Select{Point,
multi:true} at offset 2, the returned selection is {[0,5)}, which is not the
caret {[2,2)} the claim promises. -/
theorem toggle_fallthrough_not_caret_cex :
    (selection_for_gesture swTriv [] ⟨[SelRegion.new 0 5]⟩ none 2
        (GestureType.Select SelectionGranularity.Point true)).map Prod.fst
      = some ⟨[SelRegion.new 0 5]⟩
    ∧ (⟨[SelRegion.new 0 5]⟩ : Selection) ≠ ⟨[SelRegion.new 2 2]⟩ := by
  decide

/-- Claim C1 (amended): for selection {[0,5)} over any text, Select{Point,
multi:true} at offset 2 skips the toggle-off branch (only one region) and
falls through to the normal Select path; since multi is set, the caret at 2
is added to the cloned selection and merges into the overlapping region, so
the result is again {[0,5)} (hint cleared) rather than a bare caret, and the
drag state records the caret edges min = max = 2. -/
theorem toggle_fallthrough_merges_caret (sw : SelectWord) (text : RopeText)
    (ds : Option DragState) (h : Option Nat) :
    selection_for_gesture sw text ⟨[⟨0, 5, h⟩]⟩ ds 2
        (GestureType.Select SelectionGranularity.Point true)
      = some (⟨[SelRegion.new 0 5]⟩,
          some ⟨⟨[SelRegion.new 0 5]⟩, 2, 2, SelectionGranularity.Point⟩) := by
  rfl

/-- Claim C2 (code bug): at the concrete failing input (empty text, empty
selection, Select{Point, multi:false} at offset 3) the drag state written by
selection_for_gesture stores base_sel = {[3,3)}, which contains the newly
resolved region, contradicting the source documentation of
DragState.base_sel ("All the selection regions other than the one being
dragged"). -/
theorem drag_base_sel_contains_new_region :
    selection_for_gesture swTriv [] ⟨[]⟩ none 3
        (GestureType.Select SelectionGranularity.Point false)
      = some (⟨[SelRegion.caret 3]⟩,
          some ⟨⟨[SelRegion.caret 3]⟩, 3, 3, SelectionGranularity.Point⟩)
    ∧ SelRegion.caret 3 ∈ (Selection.mk [SelRegion.caret 3]).regions := by
  decide

/-- Claim C3: for Select{Point, multi:true}, the toggle-off branch runs
exactly when the offset overlaps some region and more than one region
exists: it returns the point range-delete at the offset and leaves the
drag-state slot unchanged; when either condition fails, the gesture falls
through to the normal Select path, which adds the caret and overwrites the
slot. -/
theorem toggle_off_characterization (sw : SelectWord) (text : RopeText)
    (sel : Selection) (ds : Option DragState) (offset : Nat) :
    (sel.regions_in_range offset offset ≠ [] ∧ 1 < sel.len →
      selection_for_gesture sw text sel ds offset
          (GestureType.Select SelectionGranularity.Point true)
        = some (sel.delete_range offset offset true, ds))
    ∧ (¬(sel.regions_in_range offset offset ≠ [] ∧ 1 < sel.len) →
      selection_for_gesture sw text sel ds offset
          (GestureType.Select SelectionGranularity.Point true)
        = some (sel.add_region (SelRegion.caret offset),
            some ⟨sel.add_region (SelRegion.caret offset), offset, offset,
              SelectionGranularity.Point⟩)) := by
  constructor
  · intro hc
    unfold selection_for_gesture
    rw [if_pos ⟨rfl, hc⟩]
  · intro hc
    unfold selection_for_gesture
    rw [if_neg (fun hcond => hc hcond.2)]
    rfl

/-- Witness for claim C3 at a concrete input: two regions, offset 1 inside
the first; the toggle-off branch removes it and leaves the slot empty. -/
theorem toggle_off_characterization_witness :
    selection_for_gesture swTriv [] ⟨[SelRegion.new 0 2, SelRegion.new 4 6]⟩
        none 1 (GestureType.Select SelectionGranularity.Point true)
      = some (⟨[SelRegion.new 4 6]⟩, none) :=
  ((toggle_off_characterization swTriv []
      ⟨[SelRegion.new 0 2, SelRegion.new 4 6]⟩ none 1).1 (by decide)).trans
    (by decide)

/-- Claim C6: a SelectExtend gesture on a non-empty selection resolves
new_region at the offset and adds the merged region
[active.start, new_region.end) when offset ≥ new_region.start, and
[active.start, new_region.start) otherwise, where active is the last region
of the current selection; in both cases the merged region starts at
active.start. -/
theorem select_extend_merged_region (sw : SelectWord) (text : RopeText)
    (sel : Selection) (ds : Option DragState) (offset : Nat)
    (g : SelectionGranularity) (active : SelRegion)
    (hactive : sel.regions.getLast? = some active) :
    let new_region := region_for_gesture sw text offset g
    let merged := if offset ≥ new_region.start
      then SelRegion.new active.start new_region.end_
      else SelRegion.new active.start new_region.start
    (selection_for_gesture sw text sel ds offset (GestureType.SelectExtend g)
      = some (sel.add_region merged,
          some ⟨sel.add_region merged, new_region.start, new_region.end_, g⟩))
    ∧ merged.start = active.start := by
  intro new_region merged
  constructor
  · unfold selection_for_gesture
    rw [if_neg (fun hcond => GestureType.noConfusion hcond.1)]
    rw [hactive]
  · show (if offset ≥ new_region.start
        then SelRegion.new active.start new_region.end_
        else SelRegion.new active.start new_region.start).start = active.start
    split <;> rfl

/-- Witness for claim C6 at a concrete input: anchor span [10,20),
SelectExtend{Point} at offset 25 appends the merged region [10,25), starting
at the anchor start 10. -/
theorem select_extend_merged_region_witness :
    selection_for_gesture swTriv [] ⟨[SelRegion.new 10 20]⟩ none 25
        (GestureType.SelectExtend SelectionGranularity.Point)
      = some (⟨[SelRegion.new 10 25]⟩,
          some ⟨⟨[SelRegion.new 10 25]⟩, 25, 25, SelectionGranularity.Point⟩) :=
  ((select_extend_merged_region swTriv [] ⟨[SelRegion.new 10 20]⟩ none 25
      SelectionGranularity.Point (SelRegion.new 10 20) (by decide)).1).trans
    (by decide)

/-- Helper: the start of the line containing an offset is at or before the
offset. -/
theorem offset_of_line_line_of_offset_le (text : RopeText) (offset : Nat) :
    offset_of_line text (line_of_offset text offset) ≤ offset := by
  induction text generalizing offset with
  | nil => simp [line_of_offset, offset_of_line]
  | cons c rest ih =>
    cases offset with
    | zero => simp [line_of_offset, offset_of_line]
    | succ m =>
      by_cases hc : c = '\n'
      · have hcount : line_of_offset (c :: rest) (m + 1)
            = line_of_offset rest m + 1 := by
          subst hc
          simp [line_of_offset, List.count_cons]
        rw [hcount]
        have hstep : offset_of_line (c :: rest) (line_of_offset rest m + 1)
            = 1 + offset_of_line rest (line_of_offset rest m) := by
          simp [offset_of_line, hc]
        rw [hstep]
        have := ih m
        omega
      · have hcount : line_of_offset (c :: rest) (m + 1)
            = line_of_offset rest m := by
          simp [line_of_offset, List.count_cons, hc]
        rw [hcount]
        cases hk : line_of_offset rest m with
        | zero => simp [offset_of_line]
        | succ j =>
          have hstep : offset_of_line (c :: rest) (j + 1)
              = 1 + offset_of_line rest (j + 1) := by
            simp [offset_of_line, hc]
          rw [hstep]
          have h2 := ih m
          rw [hk] at h2
          omega

/-- Claim C10: Point and Line regions always start at or before the offset,
so in SelectExtend the direction test offset ≥ new_region.start always holds
for these granularities and the backward branch is unreachable: the merged
region is always [active.start, new_region.end). -/
theorem point_line_region_start_le (sw : SelectWord) (text : RopeText)
    (offset : Nat) (g : SelectionGranularity)
    (hg : g = SelectionGranularity.Point ∨ g = SelectionGranularity.Line) :
    (region_for_gesture sw text offset g).start ≤ offset
    ∧ ∀ sel : Selection, ∀ ds : Option DragState,
        selection_for_gesture sw text sel ds offset (GestureType.SelectExtend g)
          = match sel.regions.getLast? with
            | none => (some (sel, ds) : Option (Selection × Option DragState))
            | some active =>
              some (sel.add_region (SelRegion.new active.start
                      (region_for_gesture sw text offset g).end_),
                some ⟨sel.add_region (SelRegion.new active.start
                        (region_for_gesture sw text offset g).end_),
                  (region_for_gesture sw text offset g).start,
                  (region_for_gesture sw text offset g).end_, g⟩) := by
  have hstart : (region_for_gesture sw text offset g).start ≤ offset := by
    rcases hg with rfl | rfl
    · exact Nat.le_refl offset
    · exact offset_of_line_line_of_offset_le text offset
  refine ⟨hstart, ?_⟩
  intro sel ds
  unfold selection_for_gesture
  rw [if_neg (fun hcond => GestureType.noConfusion hcond.1)]
  cases hl : sel.regions.getLast? with
  | none => rfl
  | some active =>
    simp only []
    rw [if_pos hstart]

/-- Witness for claim C10 at a concrete input: the Line region at offset 2
of the text "a newline b" starts at offset 2 ≤ 2. -/
theorem point_line_region_start_le_witness :
    (region_for_gesture swTriv ['a', '\n', 'b'] 2
      SelectionGranularity.Line).start ≤ 2 :=
  (point_line_region_start_le swTriv ['a', '\n', 'b'] 2
    SelectionGranularity.Line (Or.inr rfl)).1

/-- Claim C4: for every text, non-empty selection and drag-state slot, every
Select, SelectExtend or Drag gesture that returns a selection returns one
with at least one region: no gesture empties a non-empty selection, and in
particular toggling off the sole remaining region is rejected. -/
theorem gesture_preserves_nonempty (sw : SelectWord) (text : RopeText)
    (sel : Selection) (ds : Option DragState) (offset : Nat) (g : GestureType)
    (hg : (∃ gran multi, g = GestureType.Select gran multi)
      ∨ (∃ gran, g = GestureType.SelectExtend gran)
      ∨ g = GestureType.Drag)
    (hsel : 0 < sel.len) (out : Selection × Option DragState)
    (hout : selection_for_gesture sw text sel ds offset g = some out) :
    0 < out.1.len := by
  rcases hg with ⟨gran, multi, rfl⟩ | ⟨gran, rfl⟩ | rfl
  · simp only [selection_for_gesture] at hout
    split at hout
    · rename_i hc
      injection hout with h1
      subst h1
      exact Selection.delete_range_point_len_pos sel offset hc.2.2
    · cases multi with
      | false =>
        injection hout with h1
        subst h1
        simp [Selection.len]
      | true =>
        injection hout with h1
        subst h1
        exact Selection.add_region_len_pos sel _
  · simp only [selection_for_gesture] at hout
    split at hout
    · rename_i hc
      exact GestureType.noConfusion hc.1
    · split at hout
      · injection hout with h1
        subst h1
        exact hsel
      · injection hout with h1
        subst h1
        exact Selection.add_region_len_pos sel _
  · simp only [selection_for_gesture] at hout
    split at hout
    · rename_i hc
      exact GestureType.noConfusion hc.1
    · split at hout
      · injection hout with h1
        subst h1
        exact hsel
      · injection hout with h1
        subst h1
        exact Selection.add_region_len_pos _ _

/-- Witness for claim C4 at a concrete input: a Drag with an empty slot over
the singleton selection {[0,0)} keeps one region. -/
theorem gesture_preserves_nonempty_witness :
    0 < (Selection.mk [SelRegion.caret 0]).len :=
  gesture_preserves_nonempty swTriv [] ⟨[SelRegion.caret 0]⟩ none 0
    GestureType.Drag (Or.inr (Or.inr rfl)) (by decide)
    (⟨[SelRegion.caret 0]⟩, none) (by decide)
